import Mathlib

/-!
Formal model of the SugarLog asynchronous logging core.

The definitions below are a shallow embedding of the C++ sources
`thread_safe_queue.hpp` (ThreadSafeQueue, BatchQueue), `async_logger.hpp`
(AsyncLoggerConfig, AsyncLogger) and `log_sink.hpp` (LogSink, FilterLogSink).
Concurrency is modelled sequentially: every queue operation in the source runs
under one mutex, so each operation is a pure function of the state it observes;
a blocking wait whose outcome depends on future events is modelled as an
explicit `blocked` outcome with the state unchanged.
-/

namespace sugarlog

/-- LogLevel enumeration from log_level.hpp (uint8 values 0..6). -/
inductive LogLevel where
  | TRACE
  | DEBUG
  | INFO
  | WARN
  | ERROR
  | FATAL
  | OFF
  deriving DecidableEq

/-- Numeric value of a level, as in the uint8 representation. -/
def LogLevel.toNat : LogLevel → Nat
  | .TRACE => 0
  | .DEBUG => 1
  | .INFO => 2
  | .WARN => 3
  | .ERROR => 4
  | .FATAL => 5
  | .OFF => 6

/-- Model of operator>= on LogLevel: comparison of the uint8 values. -/
def LogLevel.ge (a b : LogLevel) : Bool :=
  b.toNat ≤ a.toNat

/-- LogMessage value from log_message.hpp: level, text, source location,
timestamp and creating-thread id (the two latter modelled as naturals). -/
structure LogMessage where
  level_ : LogLevel
  message_ : String
  file_ : String
  line_ : Nat
  function_ : String
  timestamp_ : Nat
  thread_id_ : Nat
  deriving DecidableEq

/-- Getter LogMessage::level(). -/
def LogMessage.level (m : LogMessage) : LogLevel := m.level_

/-- State of ThreadSafeQueue from thread_safe_queue.hpp: the underlying
std::queue (front of the list is the queue front), max_size_ (0 = unbounded)
and the shutdown_ flag. -/
structure ThreadSafeQueue (T : Type) where
  queue_ : List T
  max_size_ : Nat
  shutdown_ : Bool
  deriving DecidableEq

/-- Outcome of a blocking push: stored, failed (shutdown), or still waiting on
the not_full_ condition. -/
inductive PushResult where
  | ok
  | failed
  | blocked
  deriving DecidableEq

/-- Outcome of a blocking pop: an item, failure (shutdown with empty queue), or
still waiting on the not_empty_ condition. -/
inductive PopResult (T : Type) where
  | ok (item : T)
  | failed
  | blocked
  deriving DecidableEq

namespace ThreadSafeQueue

variable {T : Type}

/-- The constructor ThreadSafeQueue(max_size): empty queue, not shut down. -/
def init (T : Type) (max_size : Nat) : ThreadSafeQueue T :=
  ⟨[], max_size, false⟩

/-- Blocking push: fails if shut down; if bounded and full it waits on
not_full_ (modelled as a blocked outcome); otherwise appends at the back. -/
def push (q : ThreadSafeQueue T) (item : T) : PushResult × ThreadSafeQueue T :=
  if q.shutdown_ then (.failed, q)
  else if 0 < q.max_size_ ∧ q.max_size_ ≤ q.queue_.length then (.blocked, q)
  else (.ok, { q with queue_ := q.queue_ ++ [item] })

/-- Non-blocking try_push: fails if shut down, or if bounded and
queue_.size() >= max_size_; otherwise appends at the back. -/
def try_push (q : ThreadSafeQueue T) (item : T) : Bool × ThreadSafeQueue T :=
  if q.shutdown_ then (false, q)
  else if 0 < q.max_size_ ∧ q.max_size_ ≤ q.queue_.length then (false, q)
  else (true, { q with queue_ := q.queue_ ++ [item] })

/-- Blocking pop: waits on not_empty_ until non-empty or shutdown; fails when
shut down and empty; otherwise removes the front element. -/
def pop (q : ThreadSafeQueue T) : PopResult T × ThreadSafeQueue T :=
  match q.queue_ with
  | [] => if q.shutdown_ then (.failed, q) else (.blocked, q)
  | x :: rest => (.ok x, { q with queue_ := rest })

/-- Non-blocking try_pop: fails when empty, otherwise removes the front. -/
def try_pop (q : ThreadSafeQueue T) : Option T × ThreadSafeQueue T :=
  match q.queue_ with
  | [] => (none, q)
  | x :: rest => (some x, { q with queue_ := rest })

/-- size(): number of stored items. -/
def size (q : ThreadSafeQueue T) : Nat := q.queue_.length

/-- clear(): removes every stored item. -/
def clear (q : ThreadSafeQueue T) : ThreadSafeQueue T :=
  { q with queue_ := [] }

/-- shutdown(): sets the terminal flag (and wakes all waiters). -/
def shutdown (q : ThreadSafeQueue T) : ThreadSafeQueue T :=
  { q with shutdown_ := true }

/-- get_max_size(). -/
def get_max_size (q : ThreadSafeQueue T) : Nat := q.max_size_

/-- Repeated blocking pops, collecting the outcomes in call order. -/
def popSeq : ThreadSafeQueue T → Nat → List (PopResult T) × ThreadSafeQueue T
  | q, 0 => ([], q)
  | q, n + 1 =>
    let r := q.pop
    let rs := popSeq r.2 n
    (r.1 :: rs.1, rs.2)

/-- Capacity invariant of the bounded queue: when a capacity is set, the number
of enqueued-but-undelivered items never exceeds it. -/
def capInv (q : ThreadSafeQueue T) : Prop :=
  0 < q.max_size_ → q.queue_.length ≤ q.max_size_

instance (q : ThreadSafeQueue T) : Decidable q.capInv :=
  inferInstanceAs (Decidable (0 < q.max_size_ → q.queue_.length ≤ q.max_size_))

end ThreadSafeQueue

/-- BatchQueue from thread_safe_queue.hpp: a ThreadSafeQueue plus a default
batch size for batched draining. -/
structure BatchQueue (T : Type) extends ThreadSafeQueue T where
  batch_size_ : Nat
  deriving DecidableEq

/-- Outcome of the blocking pop_batch: a drained batch, or still waiting on the
not_empty_ condition. -/
inductive BatchResult (T : Type) where
  | blocked
  | done (batch : List T)
  deriving DecidableEq

namespace BatchQueue

variable {T : Type}

/-- The constructor BatchQueue(max_size, batch_size). -/
def init (T : Type) (max_size batch_size : Nat) : BatchQueue T :=
  ⟨⟨[], max_size, false⟩, batch_size⟩

/-- try_push forwarded to the underlying ThreadSafeQueue. -/
def try_push (q : BatchQueue T) (item : T) : Bool × BatchQueue T :=
  let r := q.toThreadSafeQueue.try_push item
  (r.1, { q with toThreadSafeQueue := r.2 })

/-- try_pop forwarded to the underlying ThreadSafeQueue. -/
def try_pop (q : BatchQueue T) : Option T × BatchQueue T :=
  let r := q.toThreadSafeQueue.try_pop
  (r.1, { q with toThreadSafeQueue := r.2 })

/-- pop_batch(batch, max_items): waits on not_empty_ until non-empty or
shutdown; returns an empty batch when shut down and empty; otherwise moves up
to max_items items (batch_size_ when max_items = 0) out in FIFO order under
one critical section. -/
def pop_batch (q : BatchQueue T) (max_items : Nat) : BatchResult T × BatchQueue T :=
  let m := if max_items = 0 then q.batch_size_ else max_items
  if q.queue_.isEmpty ∧ ¬q.shutdown_ then (.blocked, q)
  else if q.shutdown_ ∧ q.queue_.isEmpty then (.done [], q)
  else (.done (q.queue_.take m), { q with queue_ := q.queue_.drop m })

/-- capacity(): returns get_max_size(). -/
def capacity (q : BatchQueue T) : Nat := q.toThreadSafeQueue.get_max_size

end BatchQueue

/-- Observable state of one sink implementation behind the LogSink interface of
log_sink.hpp. level_ is the severity threshold of the base class; `fails`
models an implementation whose log() raises an error (e.g. an I/O failure);
`received` records the messages its log() accepted, in call order; `flushes`
counts the flush() calls it received. -/
structure LogSink where
  level_ : LogLevel
  fails : Bool
  received : List LogMessage
  flushes : Nat
  deriving DecidableEq

namespace LogSink

/-- LogSink::should_log(level): level >= level_. -/
def should_log (s : LogSink) (level : LogLevel) : Bool :=
  LogLevel.ge level s.level_

/-- LogSink::get_level(). -/
def get_level (s : LogSink) : LogLevel := s.level_

/-- The virtual log(message) call: raises an error when the implementation
fails, otherwise the message is delivered to the sink. -/
def log (s : LogSink) (m : LogMessage) : Except Unit LogSink :=
  if s.fails then Except.error () else Except.ok { s with received := s.received ++ [m] }

/-- The virtual flush() call. -/
def flush (s : LogSink) : LogSink := { s with flushes := s.flushes + 1 }

end LogSink

/-- Inner fan-out loop shared by AsyncLogger::process_batch and
AsyncLogger::process_message: for each sink in insertion order, if
sink->should_log(msg.level()) then sink->log(msg). The virtual sink->log call
is inlined here: a failing implementation raises before delivering, a normal
one records the message. There is no try/catch in the loop, so an error raised
by a sink propagates at once: later sinks are not visited.
Returns the updated sink list, the 0-based indices of the sinks whose log()
was invoked (in visit order), and whether an error escaped the loop. -/
def process_message (sinks : List LogSink) (m : LogMessage) :
    List LogSink × List Nat × Bool :=
  match sinks with
  | [] => ([], [], false)
  | s :: rest =>
    if s.should_log m.level then
      if s.fails then (s :: rest, [], true)
      else
        let r := process_message rest m
        ({ s with received := s.received ++ [m] } :: r.1,
          0 :: r.2.1.map (· + 1), r.2.2)
    else
      let r := process_message rest m
      (s :: r.1, r.2.1.map (· + 1), r.2.2)

/-- AsyncLogger::process_batch: the per-message fan-out applied to every record
of the drained batch in batch order; an escaping sink error aborts the whole
pass (it propagates out of process_batch into the worker thread, which has no
handler either). -/
def process_batch (sinks : List LogSink) (batch : List LogMessage) :
    List LogSink × Bool :=
  match batch with
  | [] => (sinks, false)
  | m :: rest =>
    let r := process_message sinks m
    if r.2.2 then (r.1, true) else process_batch r.1 rest

/-- FilterLogSink from log_sink.hpp: exactly one child sink plus an optional
predicate (std::function may be empty, which the source guards with
`if (filter_ && ...)`). -/
structure FilterLogSink where
  sink_ : LogSink
  filter_ : Option (LogMessage → Bool)

namespace FilterLogSink

/-- FilterLogSink::log: `if (filter_ && filter_(message)) sink_->log(message)`. -/
def log (f : FilterLogSink) (m : LogMessage) : Except Unit FilterLogSink :=
  match f.filter_ with
  | none => Except.ok f
  | some pred =>
    if pred m then
      match f.sink_.log m with
      | Except.error e => Except.error e
      | Except.ok s1 => Except.ok { f with sink_ := s1 }
    else Except.ok f

/-- FilterLogSink::flush: forwards to the child unconditionally. -/
def flush (f : FilterLogSink) : FilterLogSink :=
  { f with sink_ := f.sink_.flush }

/-- FilterLogSink::get_level: returns the child level. -/
def get_level (f : FilterLogSink) : LogLevel := f.sink_.get_level

/-- FilterLogSink::should_log: delegates to the child. -/
def should_log (f : FilterLogSink) (level : LogLevel) : Bool :=
  f.sink_.should_log level

end FilterLogSink

/-- AsyncLoggerConfig from async_logger.hpp, with the source defaults noted in
the constructor below. -/
structure AsyncLoggerConfig where
  queue_size : Nat
  batch_size : Nat
  flush_interval_ms : Nat
  worker_threads : Nat
  auto_flush : Bool
  memory_pool_size : Nat
  max_memory_pool_blocks : Nat
  enable_performance_monitoring : Bool
  deriving DecidableEq

/-- State of AsyncLogger from async_logger.hpp. workers_ is the number of
std::thread handles held in the workers_ vector; per C++ semantics each handle
stays joinable (even after its thread function returns) until join() or
detach() is called on it, and destroying a joinable std::thread calls
std::terminate. -/
structure AsyncLogger where
  config_ : AsyncLoggerConfig
  queue_ : BatchQueue LogMessage
  sinks_ : List LogSink
  workers_ : Nat
  running_ : Bool
  stop_requested_ : Bool
  dropped_count_ : Nat
  deriving DecidableEq

/-- Outcome of a call that may destroy joinable threads: a normal return, or
process abort via std::terminate. -/
inductive StopOutcome where
  | returned
  | terminated
  deriving DecidableEq

namespace AsyncLogger

/-- The AsyncLogger(config) constructor: queue_(config.queue_size) with the
BatchQueue default batch size 100, no sinks, not running. -/
def init (config : AsyncLoggerConfig) : AsyncLogger :=
  { config_ := config
    queue_ := BatchQueue.init LogMessage config.queue_size 100
    sinks_ := []
    workers_ := 0
    running_ := false
    stop_requested_ := false
    dropped_count_ := 0 }

/-- AsyncLogger::start(): no-op when already running; otherwise clears the
stop flag, marks running and spawns config_.worker_threads worker threads. -/
def start (a : AsyncLogger) : AsyncLogger :=
  if a.running_ then a
  else
    { a with
      running_ := true
      stop_requested_ := false
      workers_ := a.workers_ + a.config_.worker_threads }

/-- AsyncLogger::stop(wait_for_completion): no-op when not running; sets the
stop flag; when waiting it joins every worker (each handle becomes
non-joinable) and then clears workers_; without waiting it clears workers_
directly, and clearing a vector that still holds joinable std::thread handles
destroys them, which calls std::terminate. -/
def stop (a : AsyncLogger) (wait_for_completion : Bool) :
    StopOutcome × AsyncLogger :=
  if ¬a.running_ then (.returned, a)
  else
    if wait_for_completion then
      (.returned,
        { a with stop_requested_ := true, workers_ := 0, running_ := false })
    else
      if 0 < a.workers_ then (.terminated, { a with stop_requested_ := true })
      else (.returned,
        { a with stop_requested_ := true, workers_ := 0, running_ := false })

/-- AsyncLogger::log(message): `if (!running_) return false; return
queue_.try_push(std::move(message));` — note that nothing in the source ever
increments dropped_count_. -/
def log (a : AsyncLogger) (message : LogMessage) : Bool × AsyncLogger :=
  if ¬a.running_ then (false, a)
  else
    let r := a.queue_.try_push message
    (r.1, { a with queue_ := r.2 })

/-- AsyncLogger::get_queue_size(). -/
def get_queue_size (a : AsyncLogger) : Nat := a.queue_.toThreadSafeQueue.size

/-- AsyncLogger::get_queue_capacity(). -/
def get_queue_capacity (a : AsyncLogger) : Nat := a.queue_.capacity

/-- AsyncLogger::get_dropped_count(). -/
def get_dropped_count (a : AsyncLogger) : Nat := a.dropped_count_

/-- AsyncLogger::get_drop_rate(): dropped / (queued + dropped) when the total
is positive, else 0. The source computes in double; the operands here are
small naturals, modelled exactly in the rationals. -/
def get_drop_rate (a : AsyncLogger) : ℚ :=
  let total := a.get_queue_size + a.get_dropped_count
  if 0 < total then (a.get_dropped_count : ℚ) / (total : ℚ) else 0

end AsyncLogger

/-! Concrete states used as evaluation inputs for the theorems below. -/

/-- A default sink value (used as the fallback of List.getD). -/
def dSink : LogSink := ⟨LogLevel.INFO, false, [], 0⟩

/-- A sink at threshold INFO whose log() raises an error. -/
def sinkFailing : LogSink := ⟨LogLevel.INFO, true, [], 0⟩

/-- A well-behaved sink at threshold INFO. -/
def sinkCounting : LogSink := ⟨LogLevel.INFO, false, [], 0⟩

/-- A well-behaved sink at threshold WARN. -/
def sinkWarn : LogSink := ⟨LogLevel.WARN, false, [], 0⟩

/-- An INFO-level record. -/
def msgInfo : LogMessage := ⟨LogLevel.INFO, "info message", "", 0, "", 0, 0⟩

/-- Tagged records used in the queue scenarios. -/
def msgA : LogMessage := ⟨LogLevel.INFO, "A", "", 0, "", 0, 0⟩

def msgB : LogMessage := ⟨LogLevel.INFO, "B", "", 0, "", 0, 0⟩

def msgC : LogMessage := ⟨LogLevel.INFO, "C", "", 0, "", 0, 0⟩

def msgD : LogMessage := ⟨LogLevel.INFO, "D", "", 0, "", 0, 0⟩

def msgE : LogMessage := ⟨LogLevel.INFO, "E", "", 0, "", 0, 0⟩

/-- The predicate of the filter scenario: level >= WARN. -/
def predWarn : LogMessage → Bool := fun m => LogLevel.ge m.level LogLevel.WARN

/-- Engine configuration with queue capacity 2 and one worker. -/
def cfgCap2 : AsyncLoggerConfig := ⟨2, 100, 1000, 1, true, 1024, 1000, false⟩

/-- Engine configuration with queue capacity 3 and one worker. -/
def cfgCap3 : AsyncLoggerConfig := ⟨3, 100, 1000, 1, true, 1024, 1000, false⟩

/-- Capacity-2 engine, started, after two successful log() calls: the queue
holds two records and is full. -/
def engineFull2 : AsyncLogger :=
  (((AsyncLogger.init cfgCap2).start.log msgA).2.log msgB).2

/-- Capacity-3 engine states along the drop-rate scenario: three successful
log() calls followed by two calls that fail on the full queue. -/
def engineL0 : AsyncLogger := (AsyncLogger.init cfgCap3).start

def engineL1 : AsyncLogger := (engineL0.log msgA).2

def engineL2 : AsyncLogger := (engineL1.log msgB).2

def engineL3 : AsyncLogger := (engineL2.log msgC).2

def engineL4 : AsyncLogger := (engineL3.log msgD).2

def engineL5 : AsyncLogger := (engineL4.log msgE).2

end sugarlog

namespace sugarlog

/-- Claim C5: try_push fails leaving the queue unchanged exactly when the queue
is shut down or (capacity > 0 and it already holds at least capacity items);
otherwise it appends the item at the back and returns success, never blocking. -/
theorem try_push_fail_iff (T : Type) (q : ThreadSafeQueue T) (item : T) :
    (((q.try_push item).1 = false ∧ (q.try_push item).2 = q) ↔
      (q.shutdown_ = true ∨ (0 < q.max_size_ ∧ q.max_size_ ≤ q.queue_.length)))
    ∧ ((q.try_push item).1 = true →
        (q.try_push item).2.queue_ = q.queue_ ++ [item] ∧
        (q.try_push item).2.max_size_ = q.max_size_ ∧
        (q.try_push item).2.shutdown_ = q.shutdown_) := by
  unfold ThreadSafeQueue.try_push
  by_cases hs : q.shutdown_
  · simp [hs]
  · by_cases hf : 0 < q.max_size_ ∧ q.max_size_ ≤ q.queue_.length
    · simp [hs, hf]
    · simp [hs, hf]

/-- Witness for claim C5 at a concrete input: a capacity-2 queue holding one
item accepts a try_push and stores the item at the back. -/
theorem try_push_fail_iff_witness :
    ((ThreadSafeQueue.mk [1] 2 false).try_push 5).1 = true ∧
    ((ThreadSafeQueue.mk [1] 2 false).try_push 5).2.queue_ = [1, 5] := by
  have h := try_push_fail_iff Nat ⟨[1], 2, false⟩ 5
  refine ⟨by decide, (h.2 (by decide)).1⟩

/-- Helper for claim C4: on a shut-down queue, length + 1 pops return every
stored item in FIFO order and then one failure. -/
theorem popSeq_shutdown_spec (T : Type) (items : List T) (ms : Nat) :
    (ThreadSafeQueue.popSeq ⟨items, ms, true⟩ (items.length + 1)).1
      = items.map PopResult.ok ++ [PopResult.failed] := by
  induction items with
  | nil => simp [ThreadSafeQueue.popSeq, ThreadSafeQueue.pop]
  | cons x rest ih =>
    simpa [ThreadSafeQueue.popSeq, ThreadSafeQueue.pop] using ih

/-- Claim C4: after shutdown() no push or try_push succeeds (and the state is
unchanged), while the next K pop calls succeed returning the K stored items in
FIFO order and the following pop fails. -/
theorem shutdown_drains_then_closes (T : Type) (q : ThreadSafeQueue T) (item : T) :
    (q.shutdown.push item = (.failed, q.shutdown)) ∧
    (q.shutdown.try_push item = (false, q.shutdown)) ∧
    (q.shutdown.popSeq (q.queue_.length + 1)).1
      = q.queue_.map PopResult.ok ++ [PopResult.failed] := by
  obtain ⟨qs, ms, sd⟩ := q
  refine ⟨by simp [ThreadSafeQueue.shutdown, ThreadSafeQueue.push],
          by simp [ThreadSafeQueue.shutdown, ThreadSafeQueue.try_push],
          ?_⟩
  simpa [ThreadSafeQueue.shutdown] using popSeq_shutdown_spec T qs ms

/-- Claim C6: with a positive capacity the bound "stored items never exceed
capacity" holds in the initial state and is preserved by push, try_push, pop,
try_pop, pop_batch, clear and shutdown. -/
theorem capacity_invariant (T : Type) :
    (∀ cap : Nat, (ThreadSafeQueue.init T cap).capInv) ∧
    (∀ (q : ThreadSafeQueue T) (item : T), q.capInv →
      (q.push item).2.capInv ∧ (q.try_push item).2.capInv) ∧
    (∀ q : ThreadSafeQueue T, q.capInv →
      q.pop.2.capInv ∧ q.try_pop.2.capInv ∧ q.clear.capInv ∧ q.shutdown.capInv) ∧
    (∀ (b : BatchQueue T) (n : Nat), b.toThreadSafeQueue.capInv →
      (b.pop_batch n).2.toThreadSafeQueue.capInv) := by
  refine ⟨?_, ?_, ?_, ?_⟩
  · intro cap hpos
    simp [ThreadSafeQueue.init, ThreadSafeQueue.capInv]
  · intro q item h
    obtain ⟨qs, ms, sd⟩ := q
    simp only [ThreadSafeQueue.capInv] at h
    by_cases hsd : sd = true <;>
      by_cases hfull : 0 < ms ∧ ms ≤ qs.length <;>
        constructor <;>
          simp [ThreadSafeQueue.push, ThreadSafeQueue.try_push, ThreadSafeQueue.capInv,
            hsd, hfull] <;>
            omega
  · intro q h
    obtain ⟨qs, ms, sd⟩ := q
    simp only [ThreadSafeQueue.capInv] at h
    refine ⟨?_, ?_, ?_, ?_⟩
    · cases qs with
      | nil =>
        by_cases hsd : sd = true <;>
          simp [ThreadSafeQueue.pop, ThreadSafeQueue.capInv, hsd]
      | cons x rest =>
        simp only [ThreadSafeQueue.pop, ThreadSafeQueue.capInv, List.length_cons] at h ⊢
        omega
    · cases qs with
      | nil => simp [ThreadSafeQueue.try_pop, ThreadSafeQueue.capInv]
      | cons x rest =>
        simp only [ThreadSafeQueue.try_pop, ThreadSafeQueue.capInv, List.length_cons] at h ⊢
        omega
    · simp [ThreadSafeQueue.clear, ThreadSafeQueue.capInv]
    · simp only [ThreadSafeQueue.shutdown, ThreadSafeQueue.capInv] at h ⊢
      omega
  · intro b n h
    obtain ⟨⟨qs, ms, sd⟩, bs⟩ := b
    have h2 : 0 < ms → qs.length ≤ ms := h
    cases sd <;> cases qs <;>
      (simp [BatchQueue.pop_batch, ThreadSafeQueue.capInv] at h2 ⊢) <;> omega

/-- Witness for claim C6 at concrete inputs: a full capacity-2 queue keeps the
bound after try_push, and a batch drain of one item keeps it too. -/
theorem capacity_invariant_witness :
    ((ThreadSafeQueue.mk [1, 2] 2 false).try_push 9).2.capInv ∧
    ((BatchQueue.mk (ThreadSafeQueue.mk [1, 2] 2 false) 100).pop_batch 1).2.toThreadSafeQueue.capInv := by
  refine ⟨((capacity_invariant Nat).2.1 ⟨[1, 2], 2, false⟩ 9 (by decide)).2,
          (capacity_invariant Nat).2.2.2 ⟨⟨[1, 2], 2, false⟩, 100⟩ 1 (by decide)⟩

/-- Claim C10: log() fails and changes nothing whenever the engine is not
running (which is the constructed state, before any start()), and a successful
log() implies the engine is running. -/
theorem log_only_when_running :
    (∀ (a : AsyncLogger) (m : LogMessage), a.running_ = false → a.log m = (false, a)) ∧
    (∀ cfg : AsyncLoggerConfig, (AsyncLogger.init cfg).running_ = false) ∧
    (∀ (a : AsyncLogger) (m : LogMessage), (a.log m).1 = true → a.running_ = true) := by
  refine ⟨?_, ?_, ?_⟩
  · intro a m h
    simp [AsyncLogger.log, h]
  · intro cfg
    rfl
  · intro a m h
    by_cases hr : a.running_
    · exact hr
    · simp [AsyncLogger.log, hr] at h

/-- Witness for claim C10 at a concrete input: a freshly constructed capacity-2
engine (free queue space, never started) rejects a record without change. -/
theorem log_only_when_running_witness :
    (AsyncLogger.init cfgCap2).log msgA = (false, AsyncLogger.init cfgCap2) :=
  log_only_when_running.1 (AsyncLogger.init cfgCap2) msgA rfl

/-- Claim C1 (divergence evidence): on a started capacity-2 engine whose two
log() calls filled the queue, a third log() fails, yet the engine state is
unchanged: dropped_count() stays 0 (the source never increments
dropped_count_), while the claim expects 1. queue_size() is 2 as claimed. -/
theorem log_full_queue_drop_not_counted :
    ((AsyncLogger.init cfgCap2).start.log msgA).1 = true ∧
    (((AsyncLogger.init cfgCap2).start.log msgA).2.log msgB).1 = true ∧
    (engineFull2.log msgC).1 = false ∧
    (engineFull2.log msgC).2 = engineFull2 ∧
    engineFull2.get_queue_size = 2 ∧
    (engineFull2.log msgC).2.get_dropped_count = 0 := by
  decide

/-- Claim C3 (divergence evidence): on a started one-worker engine, stop(false)
reaches the destruction of a still-joinable std::thread handle, which is
std::terminate: the call aborts the process instead of returning with the
worker detached; stop(true) joins first and returns normally. -/
theorem stop_no_wait_terminates :
    (AsyncLogger.init cfgCap2).start.workers_ = 1 ∧
    ((AsyncLogger.init cfgCap2).start.stop false).1 = StopOutcome.terminated ∧
    ((AsyncLogger.init cfgCap2).start.stop false).2.stop_requested_ = true ∧
    ((AsyncLogger.init cfgCap2).start.stop true).1 = StopOutcome.returned := by
  decide

/-- Claim C7 (divergence evidence): after three successful log() calls that are
still queued and two log() calls dropped on the full capacity-3 queue,
drop_rate() is 0, not the claimed 2/5, because dropped_count_ is never
incremented. -/
theorem drop_rate_zero_after_drops :
    (engineL0.log msgA).1 = true ∧
    (engineL1.log msgB).1 = true ∧
    (engineL2.log msgC).1 = true ∧
    (engineL3.log msgD).1 = false ∧
    (engineL4.log msgE).1 = false ∧
    engineL5.get_queue_size = 3 ∧
    engineL5.get_dropped_count = 0 ∧
    engineL5.get_drop_rate = 0 ∧
    ¬engineL5.get_drop_rate = 2 / 5 := by
  have hq : engineL5.get_queue_size = 3 := by decide
  have hd : engineL5.get_dropped_count = 0 := by decide
  have hr : engineL5.get_drop_rate = 0 := by
    simp [AsyncLogger.get_drop_rate, hq, hd]
  refine ⟨by decide, by decide, by decide, by decide, by decide, hq, hd, hr, ?_⟩
  rw [hr]
  norm_num

/-- Claim C2 (divergence evidence): dispatching a batch of one INFO record over
a failing sink followed by a healthy sink lets the error escape process_batch
(so it reaches the worker thread, which has no handler), no sink delivery is
recorded, and in particular the second sink never receives the record. -/
theorem sink_failure_aborts_fanout :
    (process_batch [sinkFailing, sinkCounting] [msgInfo]).2 = true ∧
    (process_message [sinkFailing, sinkCounting] msgInfo).2.1 = [] ∧
    ((process_message [sinkFailing, sinkCounting] msgInfo).1.getD 1 dSink).received = [] := by
  decide

/-- Helper for claim C8: filtering a successor-mapped index list. -/
theorem filter_map_add_one (p : Nat → Bool) (l : List Nat) :
    (l.map (· + 1)).filter p = (l.filter (fun i => p (i + 1))).map (· + 1) := by
  induction l with
  | nil => rfl
  | cons x xs ih =>
    by_cases hx : p (x + 1)
    · simp [List.filter_cons, hx, ih]
    · simp [List.filter_cons, hx, ih]

/-- Helper for claim C8: the index range n + 1 as 0 followed by shifted range n. -/
theorem range_succ_shift (n : Nat) :
    List.range (n + 1) = 0 :: (List.range n).map (· + 1) := by
  simpa using List.range_succ_eq_map n

/-- Claim C8: when no sink fails, the fan-out pass over one record raises no
error, touches every sink slot, invokes exactly the sinks whose threshold
accepts the record level — in ascending position order, i.e. insertion order —
and appends the record to a sink exactly when record.level >= its threshold. -/
theorem dispatch_iff_level_ge (sinks : List LogSink) (m : LogMessage)
    (h : ∀ s ∈ sinks, s.fails = false) :
    (process_message sinks m).2.2 = false ∧
    (process_message sinks m).1.length = sinks.length ∧
    (process_message sinks m).2.1 =
      (List.range sinks.length).filter
        (fun i => (sinks.getD i dSink).should_log m.level) ∧
    (∀ i, i < sinks.length →
      ((process_message sinks m).1.getD i dSink).received =
        if (sinks.getD i dSink).should_log m.level
        then (sinks.getD i dSink).received ++ [m]
        else (sinks.getD i dSink).received) := by
  induction sinks with
  | nil => simp [process_message]
  | cons s rest ih =>
    have hs : s.fails = false := h s (List.mem_cons_self s rest)
    have hrest : ∀ x ∈ rest, x.fails = false :=
      fun x hx => h x (List.mem_cons_of_mem s hx)
    obtain ⟨ih1, ih2, ih3, ih4⟩ := ih hrest
    by_cases hl : s.should_log m.level = true
    · have hred : process_message (s :: rest) m =
          ({ s with received := s.received ++ [m] } :: (process_message rest m).1,
            0 :: (process_message rest m).2.1.map (· + 1),
            (process_message rest m).2.2) := by
        simp [process_message, hl, hs]
      refine ⟨?_, ?_, ?_, ?_⟩
      · rw [hred]
        exact ih1
      · rw [hred]
        simp [ih2]
      · rw [hred]
        simp only [List.length_cons]
        rw [range_succ_shift, List.filter_cons]
        simp only [filter_map_add_one, List.getD_cons_zero, List.getD_cons_succ, hl,
          if_true, ih3]
      · intro i hi
        rw [hred]
        cases i with
        | zero => simp [hl]
        | succ j =>
          simp only [List.getD_cons_succ]
          exact ih4 j (by simpa using hi)
    · have hred : process_message (s :: rest) m =
          (s :: (process_message rest m).1,
            (process_message rest m).2.1.map (· + 1),
            (process_message rest m).2.2) := by
        simp [process_message, hl]
      refine ⟨?_, ?_, ?_, ?_⟩
      · rw [hred]
        exact ih1
      · rw [hred]
        simp [ih2]
      · rw [hred]
        simp only [List.length_cons]
        rw [range_succ_shift, List.filter_cons]
        simp only [filter_map_add_one, List.getD_cons_zero, List.getD_cons_succ, ih3]
        simp [hl]
      · intro i hi
        rw [hred]
        cases i with
        | zero => simp [hl]
        | succ j =>
          simp only [List.getD_cons_succ]
          exact ih4 j (by simpa using hi)

/-- Witness for claim C8 at a concrete input: over an INFO-threshold sink and a
WARN-threshold sink, an INFO record is dispatched exactly to the first one. -/
theorem dispatch_iff_level_ge_witness :
    (process_message [sinkCounting, sinkWarn] msgInfo).2.1 = [0] := by
  have h := dispatch_iff_level_ge [sinkCounting, sinkWarn] msgInfo (by decide)
  rw [h.2.2.1]
  decide

/-- Claim C9: a FilterLogSink holding a predicate delivers a record to its only
child exactly when the predicate accepts it, forwards flush() to the child
unconditionally, and delegates get_level and should_log to the child. -/
theorem filter_sink_spec (child : LogSink) (pred : LogMessage → Bool)
    (m : LogMessage) (level : LogLevel) (hchild : child.fails = false) :
    (FilterLogSink.log ⟨child, some pred⟩ m =
      Except.ok ⟨if pred m then { child with received := child.received ++ [m] }
                 else child, some pred⟩) ∧
    (FilterLogSink.flush ⟨child, some pred⟩ = ⟨child.flush, some pred⟩) ∧
    (FilterLogSink.get_level ⟨child, some pred⟩ = child.get_level) ∧
    (FilterLogSink.should_log ⟨child, some pred⟩ level = child.should_log level) := by
  refine ⟨?_, rfl, rfl, rfl⟩
  by_cases hp : pred m
  · simp [FilterLogSink.log, hp, LogSink.log, hchild]
  · simp [FilterLogSink.log, hp]

/-- Witness for claim C9 at a concrete input: a FilterLogSink over the counting
sink with the WARN predicate flushes straight through to the child. -/
theorem filter_sink_spec_witness :
    FilterLogSink.flush ⟨sinkCounting, some predWarn⟩
      = ⟨sinkCounting.flush, some predWarn⟩ :=
  (filter_sink_spec sinkCounting predWarn msgInfo LogLevel.INFO rfl).2.1

end sugarlog
